import Mathlib

/-!
Verification development for an e-commerce backend (Express + Mongoose).

The development shallowly embeds the parts of the repository that the
claims touch:

* the User schema (name, email, password, role) with its setters
  (trim, lowercase), validators (required, maxlength, minlength, enum,
  email match regex), the pre-save password-hashing hook and the
  matchPassword instance method;
* the Order schema with its required fields and its optional
  paidAt/deliveredAt timestamps;
* the server request-dispatch order of server.js (health check, API
  router mounts, static serving, the production catch-all, the 404
  middleware) and the product route guard chain protect/admin.

External libraries are modelled as collaborators: bcrypt is modelled as
an idealized collision-free salted hash (matching the specification
caveat about negligible collision probability), and the Mongoose query
and save pipeline is modelled by explicit functions driven by the
schema declarations that are in the source.
-/

namespace ECommerce

/-! ## Idealized bcrypt

Source part_000 uses bcrypt.genSalt(12) and bcrypt.hash / bcrypt.compare.
The hash is modelled as a constructor application: an idealized
collision-free salted hash, matching the caveat about negligible
collision probability. The salt produced by genSalt is random, so it is
passed in as an explicit parameter wherever a save happens. -/

/-- Value held by the password field of a user document: either a plain
string as supplied by the client, or the bcrypt digest of a previous
value, tagged with cost factor and salt. -/
inductive PwValue where
  | plain (s : String)
  | hashed (cost : Nat) (salt : Nat) (v : PwValue)
deriving DecidableEq, Repr

/-- Model of bcrypt.hash: produces the digest of the given value with
the given cost factor and salt. Idealized as injective. -/
def bcryptHash (cost : Nat) (salt : Nat) (v : PwValue) : PwValue :=
  PwValue.hashed cost salt v

/-- Model of bcrypt.compare: extracts the cost and salt embedded in the
stored digest, re-hashes the candidate with them and compares digests.
A stored value that is not a bcrypt digest compares false. -/
def bcryptCompare (candidate : String) (stored : PwValue) : Bool :=
  match stored with
  | PwValue.hashed c s _ => bcryptHash c s (PwValue.plain candidate) == stored
  | PwValue.plain _ => false

/-! ## Email regex matcher

The email validator in part_000 line 26 is the anchored regex
  \w+([.-]?\w+)*@\w+([.-]?\w+)*(\.\w{2,3})+
over ASCII word characters. It is embedded as a small backtracking
matcher over character predicates; the match is anchored by requiring
the whole string to be consumed. -/

/-- Regular expressions over character predicates. -/
inductive Rx where
  | eps
  | pred (p : Char → Bool)
  | alt (r₁ r₂ : Rx)
  | seq (r₁ r₂ : Rx)
  | star (r : Rx)

/-- Fuel-bounded backtracking matcher in continuation-passing style.
The continuation receives the rest of the input; the star case only
recurses on strictly shorter input, so fuel larger than the regex size
times the input length is always sufficient. -/
def rxRun : Nat → Rx → List Char → (List Char → Bool) → Bool
  | 0, _, _, _ => false
  | _ + 1, Rx.eps, s, k => k s
  | _ + 1, Rx.pred _, [], _ => false
  | _ + 1, Rx.pred p, c :: s, k => p c && k s
  | fuel + 1, Rx.alt r₁ r₂, s, k => rxRun fuel r₁ s k || rxRun fuel r₂ s k
  | fuel + 1, Rx.seq r₁ r₂, s, k =>
      rxRun fuel r₁ s (fun s' => rxRun fuel r₂ s' k)
  | fuel + 1, Rx.star r, s, k =>
      k s || rxRun fuel r s (fun s' =>
        if s'.length < s.length then rxRun fuel (Rx.star r) s' k else false)

/-- Anchored full match with fuel proportional to the input size. -/
def rxMatches (r : Rx) (s : String) : Bool :=
  rxRun (64 * (s.length + 1)) r s.toList List.isEmpty

/-- ASCII word character, the class matched by backslash-w in a
JavaScript regex without the unicode flag. -/
def isWordChar (c : Char) : Bool :=
  c.isAlpha || c.isDigit || c == '_'

/-- One or more repetitions. -/
def Rx.rep1 (r : Rx) : Rx := Rx.seq r (Rx.star r)

/-- Zero or one repetition. -/
def Rx.zeroOrOne (r : Rx) : Rx := Rx.alt r Rx.eps

/-- The email regex from the User schema:
  \w+([.-]?\w+)*@\w+([.-]?\w+)*(\.\w{2,3})+  (anchored). -/
def emailRx : Rx :=
  let w : Rx := Rx.pred isWordChar
  let sepWord : Rx := Rx.seq (Rx.zeroOrOne (Rx.pred (fun c => c == '.' || c == '-'))) (Rx.rep1 w)
  let tld : Rx := Rx.seq (Rx.pred (fun c => c == '.')) (Rx.seq w (Rx.seq w (Rx.zeroOrOne w)))
  Rx.seq (Rx.rep1 w) (Rx.seq (Rx.star sepWord)
    (Rx.seq (Rx.pred (fun c => c == '@'))
      (Rx.seq (Rx.rep1 w) (Rx.seq (Rx.star sepWord) (Rx.rep1 tld)))))

/-- The match validator of the email field. -/
def emailValid (s : String) : Bool := rxMatches emailRx s

/-! ## The User schema

Embedding of userSchema from part_000: fields name (required, trim,
maxlength 50), email (required, lowercase, trim, match regex), password
(required, minlength 8, select false), role (enum user or admin,
default user). -/

/-- Lowercasing of a string character by character, the behavior of the
lowercase setter on the email path. -/
def lowerString (s : String) : String :=
  String.mk (s.data.map Char.toLower)

/-- Removal of leading and trailing whitespace, the behavior of the
trim setter on the name and email paths. -/
def trimString (s : String) : String :=
  String.mk (((s.data.dropWhile Char.isWhitespace).reverse.dropWhile
    Char.isWhitespace).reverse)

/-- Client-supplied input for creating a user. A role of none means the
field is absent from the request body, so the schema default applies. -/
structure UserInput where
  name : String
  email : String
  password : String
  role : Option String
deriving DecidableEq, Repr

/-- An in-memory user document after construction: setters (trim on
name, lowercase and trim on email) and the role default have been
applied, the password is still whatever the client supplied. -/
structure UserDoc where
  name : String
  email : String
  password : PwValue
  role : String
deriving DecidableEq, Repr

/-- Construction of a new user document from client input: Mongoose
applies the declared setters, lowercase then trim on email and trim on
name, and fills the role default. -/
def buildUser (i : UserInput) : UserDoc :=
  { name := trimString i.name
    email := trimString (lowerString i.email)
    password := PwValue.plain i.password
    role := i.role.getD "user" }

/-- Length in characters of the plain password as supplied, for the
minlength validator, which runs before the pre-save hook hashes. -/
def pwLength : PwValue → Nat
  | PwValue.plain s => s.length
  | PwValue.hashed _ _ _ => 60

/-- Schema validation of a user document: required plus maxlength on
name, required plus the match regex on email, required plus minlength 8
on password, enum on role. Required on a String path fails on the empty
string. -/
def validateUser (u : UserDoc) : Bool :=
  !u.name.isEmpty && decide (u.name.length ≤ 50) &&
  !u.email.isEmpty && emailValid u.email &&
  decide (8 ≤ pwLength u.password) &&
  (u.role == "user" || u.role == "admin")

/-- The pre-save hook of part_000 lines 56-71: when the password path
was modified since load, generate a salt with cost factor 12 and
replace the password with the salted hash of its current value;
otherwise leave the document untouched. The random salt produced by
genSalt is an explicit parameter. -/
def preSaveHashPassword (doc : UserDoc) (passwordModified : Bool) (salt : Nat) : UserDoc :=
  if !passwordModified then doc
  else { doc with password := bcryptHash 12 salt doc.password }

/-- Saving a new document into the users collection: validation runs
first; on failure the save is rejected and the collection untouched; on
success the pre-save hook hashes the password (a new document always
has a modified password path) and the document is written. -/
def saveNewUser (coll : List UserDoc) (i : UserInput) (salt : Nat) :
    Except String UserDoc × List UserDoc :=
  let u := buildUser i
  if validateUser u then
    let stored := preSaveHashPassword u true salt
    (Except.ok stored, coll ++ [stored])
  else
    (Except.error "User validation failed", coll)

/-! ## Query projection and matchPassword

The password field is declared with select false (part_000 line 35), so
the default query path omits it; a query that opts in with an explicit
select includes it. matchPassword (part_000 lines 78-80) compares a
candidate against this.password with bcrypt.compare; on a document
where the password was not selected, this.password is undefined and
bcrypt.compare rejects with an illegal-arguments error. -/

/-- The select flag declared on the password path in the schema. -/
def passwordSelectedByDefault : Bool := false

/-- A user document as returned by a query: the password field is
present only when the query selected it. -/
structure QueriedUser where
  name : String
  email : String
  password : Option PwValue
  role : String
deriving DecidableEq, Repr

/-- Query projection: the password field is included exactly when the
query selects it. -/
def projectUser (u : UserDoc) (selectPassword : Bool) : QueriedUser :=
  { name := u.name
    email := u.email
    password := if selectPassword then some u.password else none
    role := u.role }

/-- The default query path: the password select flag comes from the
schema declaration. -/
def findDefault (u : UserDoc) : QueriedUser :=
  projectUser u passwordSelectedByDefault

/-- The opt-in query path that explicitly selects the password. -/
def findWithPassword (u : UserDoc) : QueriedUser :=
  projectUser u true

/-- The matchPassword instance method: bcrypt.compare of the candidate
against this.password. When the password field is absent, bcrypt
rejects with an error rather than returning a boolean. -/
def QueriedUser.matchPassword (u : QueriedUser) (candidate : String) : Except String Bool :=
  match u.password with
  | none => Except.error "Illegal arguments: string, undefined"
  | some h => Except.ok (bcryptCompare candidate h)

/-! ## The Order schema

Embedding of orderSchema from part_001. A field of Option type is a
field the document may lack; required paths are validated with isSome,
and required String paths additionally reject the empty string, as
Mongoose does. Money amounts are integers here since no claim concerns
their arithmetic; dates and object ids are natural numbers. The paths
paidAt, deliveredAt and the four paymentResult subpaths carry no
required declaration, so validation never inspects their presence. -/

/-- A line item of an order; every path of the item schema is required. -/
structure OrderItem where
  name : Option String
  qty : Option Int
  image : Option String
  price : Option Int
  product : Option Nat
deriving DecidableEq, Repr

/-- The embedded shipping address; all four paths are required. -/
structure ShippingAddress where
  address : Option String
  city : Option String
  postalCode : Option String
  country : Option String
deriving DecidableEq, Repr

/-- The embedded payment-gateway snapshot; all four paths are optional. -/
structure PaymentResult where
  id : Option String
  status : Option String
  update_time : Option String
  email_address : Option String
deriving DecidableEq, Repr

/-- An order document. -/
structure OrderDoc where
  user : Option Nat
  orderItems : List OrderItem
  shippingAddress : ShippingAddress
  paymentMethod : Option String
  paymentResult : PaymentResult
  itemsPrice : Option Int
  taxPrice : Option Int
  shippingPrice : Option Int
  totalPrice : Option Int
  isPaid : Option Bool
  paidAt : Option Nat
  isDelivered : Option Bool
  deliveredAt : Option Nat
deriving DecidableEq, Repr

/-- Required validator on a String path: present and nonempty. -/
def requiredStr (v : Option String) : Bool :=
  match v with
  | some s => !s.isEmpty
  | none => false

/-- Defaults declared in the order schema: the four money paths default
to 0 and the two status flags to false; Mongoose fills them at
construction time, before validation. -/
def applyOrderDefaults (o : OrderDoc) : OrderDoc :=
  { o with
    itemsPrice := some (o.itemsPrice.getD 0)
    taxPrice := some (o.taxPrice.getD 0)
    shippingPrice := some (o.shippingPrice.getD 0)
    totalPrice := some (o.totalPrice.getD 0)
    isPaid := some (o.isPaid.getD false)
    isDelivered := some (o.isDelivered.getD false) }

/-- Validation of one order line item: all five paths required. -/
def validOrderItem (it : OrderItem) : Bool :=
  requiredStr it.name && it.qty.isSome && requiredStr it.image &&
  it.price.isSome && it.product.isSome

/-- Schema validation of an order document: exactly the required
declarations of part_001. paidAt, deliveredAt and the paymentResult
subpaths carry no validator, so they are not inspected. -/
def validateOrder (o : OrderDoc) : Bool :=
  o.user.isSome &&
  o.orderItems.all validOrderItem &&
  requiredStr o.shippingAddress.address &&
  requiredStr o.shippingAddress.city &&
  requiredStr o.shippingAddress.postalCode &&
  requiredStr o.shippingAddress.country &&
  requiredStr o.paymentMethod &&
  o.itemsPrice.isSome && o.taxPrice.isSome &&
  o.shippingPrice.isSome && o.totalPrice.isSome &&
  o.isPaid.isSome && o.isDelivered.isSome

/-! ## Server dispatch order

Embedding of the routing order of src/backend/server.js lines 73-118:
health check, the five API router mounts, static uploads, then in
production the static frontend build followed by the GET catch-all, in
development the root route, and finally the 404 middleware. The
behaviors of the mounted routers and of the filesystem are parameters:
a predicate says whether a mounted router handles the request, and
predicates say whether a static file exists for it. The notFound and
errorHandler middleware are not under src; modelled from the spec:
unmatched requests receive a 4xx JSON not-found error from the 404
middleware mounted after all real routes. -/

/-- HTTP method of a request. -/
inductive HttpMethod where
  | get
  | post
  | put
  | delete
  | other
deriving DecidableEq, Repr

/-- An incoming HTTP request: method and path. -/
structure HttpRequest where
  method : HttpMethod
  path : String
deriving DecidableEq, Repr

/-- Outcome of dispatching a request through the middleware stack. -/
inductive ServerResponse where
  | health
  | apiHandled
  | uploadFile
  | buildAsset
  | indexHtml
  | devRoot
  | notFoundJson (path : String)
deriving DecidableEq, Repr

/-- Path-segment-aware mount matching: a middleware mounted at a path
handles that exact path and the paths below it. -/
def mountMatches (mount p : String) : Bool :=
  p == mount || (mount ++ "/").data.isPrefixOf p.data

/-- True when the path falls under one of the five API router mounts of
server.js lines 78-82. -/
def underApiMount (p : String) : Bool :=
  mountMatches "/api/products" p || mountMatches "/api/users" p ||
  mountMatches "/api/orders" p || mountMatches "/api/upload" p ||
  mountMatches "/api/config" p

/-- The dispatch order of server.js. The parameters apiHandles,
uploadsHas and buildHas abstract the mounted routers and the
filesystem: apiHandles req is whether the router mounted at the
matching prefix handles the request rather than falling through, and
the static middleware serve only GET requests for files that exist. -/
def dispatch (production : Bool)
    (apiHandles uploadsHas buildHas : HttpRequest → Bool)
    (req : HttpRequest) : ServerResponse :=
  if req.method == HttpMethod.get && req.path == "/api" then
    ServerResponse.health
  else if underApiMount req.path && apiHandles req then
    ServerResponse.apiHandled
  else if req.method == HttpMethod.get && mountMatches "/uploads" req.path
      && uploadsHas req then
    ServerResponse.uploadFile
  else if production && req.method == HttpMethod.get && buildHas req then
    ServerResponse.buildAsset
  else if production && req.method == HttpMethod.get then
    ServerResponse.indexHtml
  else if !production && req.method == HttpMethod.get && req.path == "/" then
    ServerResponse.devRoot
  else
    ServerResponse.notFoundJson req.path

/-! ## Product route guard chain

productRoutes.js line 32 composes POST /api/products as
protect, admin, createProduct. The authMiddleware implementations are
not under src. Modelled from the spec: protect rejects requests
lacking a valid auth credential; admin additionally rejects requests
whose authenticated identity lacks the admin role; guards compose left
to right and each may terminate the chain with an error response. -/

/-- Authentication state of a request: no credential attached, an
invalid credential attached, or a validated identity with its role. -/
inductive AuthState where
  | noCredential
  | invalidCredential
  | authenticated (role : String)
deriving DecidableEq, Repr

/-- Modelled from the spec: the protect guard passes exactly the
requests carrying a valid auth credential. -/
def protectPasses : AuthState → Bool
  | AuthState.authenticated _ => true
  | _ => false

/-- Modelled from the spec: the admin guard passes exactly the
authenticated identities holding the admin role. -/
def adminPasses : AuthState → Bool
  | AuthState.authenticated r => r == "admin"
  | _ => false

/-- Outcome of the POST /api/products chain. -/
inductive ProductRouteResult where
  | authError (message : String)
  | created (p : String)
deriving DecidableEq, Repr

/-- The createProduct handler, abstracted: appends the new product to
the collection and reports that it ran. -/
def createProduct (coll : List String) (p : String) :
    ProductRouteResult × List String × Bool :=
  (ProductRouteResult.created p, coll ++ [p], true)

/-- The POST /api/products chain of productRoutes.js line 32: protect,
then admin, then createProduct, each guard able to short-circuit with
an error response. The Bool records whether createProduct was invoked. -/
def postProductsChain (auth : AuthState) (coll : List String) (p : String) :
    ProductRouteResult × List String × Bool :=
  if !protectPasses auth then
    (ProductRouteResult.authError "Not authorized, no token", coll, false)
  else if !adminPasses auth then
    (ProductRouteResult.authError "Not authorized as an admin", coll, false)
  else
    createProduct coll p

/-! ## Theorems -/

/-- C1: storing a user whose password field is the plaintext P, so the
pre-save hook replaces it with the salted hash, and then calling
matchPassword with candidate P returns true, while calling it with any
candidate Q distinct from P returns false; collisions are ruled out by
the idealized hash, matching the negligible-collision caveat. -/
theorem matchPassword_roundtrip (base : UserDoc) (P Q : String) (salt : Nat)
    (h : Q ≠ P) :
    (findWithPassword (preSaveHashPassword
        { base with password := PwValue.plain P } true salt)).matchPassword P
      = Except.ok true ∧
    (findWithPassword (preSaveHashPassword
        { base with password := PwValue.plain P } true salt)).matchPassword Q
      = Except.ok false := by
  constructor
  · simp [preSaveHashPassword, findWithPassword, projectUser,
      QueriedUser.matchPassword, bcryptCompare, bcryptHash]
  · simp [preSaveHashPassword, findWithPassword, projectUser,
      QueriedUser.matchPassword, bcryptCompare, bcryptHash, h]

/-- Witness for C1 at the concrete password hunter22 against the
distinct candidate password1. -/
theorem matchPassword_roundtrip_witness :
    ("password1" : String) ≠ "hunter22" ∧
    ((findWithPassword (preSaveHashPassword
        { name := "Ada", email := "ada@x.com",
          password := PwValue.plain "hunter22", role := "user" }
        true 7)).matchPassword "hunter22" = Except.ok true ∧
     (findWithPassword (preSaveHashPassword
        { name := "Ada", email := "ada@x.com",
          password := PwValue.plain "hunter22", role := "user" }
        true 7)).matchPassword "password1" = Except.ok false) :=
  ⟨by decide,
   matchPassword_roundtrip
     { name := "Ada", email := "ada@x.com",
       password := PwValue.plain "hunter22", role := "user" }
     "hunter22" "password1" 7 (by decide)⟩

/-- C2: the pre-save hook replaces the password with the cost-12 salted
hash exactly when the password path was modified; an unmodified save,
including one that only changes the name, leaves the whole document and
in particular the stored hash byte-identical; and within one save the
hook applies the hash at most once to the current value. -/
theorem preSave_frame (doc : UserDoc) (salt salt2 : Nat) (newName : String) :
    preSaveHashPassword doc false salt = doc ∧
    (preSaveHashPassword doc true salt).password = bcryptHash 12 salt doc.password ∧
    (preSaveHashPassword doc true salt).name = doc.name ∧
    (preSaveHashPassword doc true salt).email = doc.email ∧
    (preSaveHashPassword doc true salt).role = doc.role ∧
    (preSaveHashPassword { doc with name := newName } false salt2).password
      = doc.password ∧
    (∀ m : Bool, (preSaveHashPassword doc m salt).password = doc.password ∨
      (preSaveHashPassword doc m salt).password = bcryptHash 12 salt doc.password) := by
  refine ⟨by simp [preSaveHashPassword], by simp [preSaveHashPassword],
    by simp [preSaveHashPassword], by simp [preSaveHashPassword],
    by simp [preSaveHashPassword], by simp [preSaveHashPassword], ?_⟩
  intro m
  cases m
  · exact Or.inl (by simp [preSaveHashPassword])
  · exact Or.inr (by simp [preSaveHashPassword])

/-- C3: the default query path omits the password field because the
schema declares select false on it, while a query that explicitly
selects the password includes it. -/
theorem password_projection (u : UserDoc) :
    (findDefault u).password = none ∧
    (findWithPassword u).password = some u.password := by
  constructor
  · simp [findDefault, projectUser, passwordSelectedByDefault]
  · simp [findWithPassword, projectUser]

/-- C8: on a document from the default query path the password field is
absent, so matchPassword rejects with an illegal-arguments error and in
particular never returns true for any candidate; only a document whose
password was explicitly selected can make matchPassword succeed, and
some such document does. -/
theorem matchPassword_needs_selected_password (u : UserDoc) (candidate : String) :
    (findDefault u).matchPassword candidate
      = Except.error "Illegal arguments: string, undefined" ∧
    (findDefault u).matchPassword candidate ≠ Except.ok true ∧
    ∃ (v : UserDoc) (c : String),
      (findWithPassword v).matchPassword c = Except.ok true := by
  refine ⟨?_, ?_, ?_⟩
  · simp [findDefault, projectUser, passwordSelectedByDefault,
      QueriedUser.matchPassword]
  · simp [findDefault, projectUser, passwordSelectedByDefault,
      QueriedUser.matchPassword]
  · exact ⟨{ name := "Ada", email := "ada@x.com",
             password := PwValue.hashed 12 0 (PwValue.plain "hunter22"),
             role := "user" }, "hunter22", rfl⟩

/-- The request body of the end-to-end example of the specification. -/
def adaInput : UserInput :=
  { name := "Ada", email := "ADA@x.com", password := "longenough1", role := none }

/-- The record stored for the example input, for a given salt. -/
def adaStored (salt : Nat) : UserDoc :=
  { name := "Ada", email := "ada@x.com",
    password := PwValue.hashed 12 salt (PwValue.plain "longenough1"),
    role := "user" }

/-- C5: creating a user from the example body stores a record whose
email is lowercased to ada@x.com, whose role is the schema default
user, and whose password field is no longer the literal input string,
for every salt drawn at save time and every prior collection state. -/
theorem post_users_ada (salt : Nat) (coll : List UserDoc) :
    saveNewUser coll adaInput salt
      = (Except.ok (adaStored salt), coll ++ [adaStored salt]) ∧
    (adaStored salt).email = "ada@x.com" ∧
    (adaStored salt).role = "user" ∧
    (adaStored salt).password ≠ PwValue.plain "longenough1" := by
  have hb : buildUser adaInput =
      { name := "Ada", email := "ada@x.com",
        password := PwValue.plain "longenough1", role := "user" } := by decide
  have hv : validateUser
      { name := "Ada", email := "ada@x.com",
        password := PwValue.plain "longenough1", role := "user" } = true := by
    decide
  refine ⟨?_, rfl, rfl, by simp [adaStored]⟩
  simp [saveNewUser, hb, hv, preSaveHashPassword, bcryptHash, adaStored]

/-- C6: a creation attempt whose email fails the pattern validator
after the setters ran is rejected with a validation error and the users
collection is left unchanged. -/
theorem invalid_email_rejected (coll : List UserDoc) (i : UserInput) (salt : Nat)
    (h : emailValid (buildUser i).email = false) :
    (saveNewUser coll i salt).1 = Except.error "User validation failed" ∧
    (saveNewUser coll i salt).2 = coll := by
  have hv : validateUser (buildUser i) = false := by
    simp [validateUser, h]
  constructor
  · simp [saveNewUser, hv]
  · simp [saveNewUser, hv]

/-- Witness for C6 at a concrete body whose email has no at sign. -/
theorem invalid_email_rejected_witness :
    emailValid (buildUser
      { name := "Bob", email := "not-an-email",
        password := "longenough1", role := none }).email = false ∧
    ((saveNewUser []
        { name := "Bob", email := "not-an-email",
          password := "longenough1", role := none } 0).1
        = Except.error "User validation failed" ∧
     (saveNewUser []
        { name := "Bob", email := "not-an-email",
          password := "longenough1", role := none } 0).2 = []) :=
  ⟨by decide,
   invalid_email_rejected []
     { name := "Bob", email := "not-an-email",
       password := "longenough1", role := none } 0 (by decide)⟩

/-- C9: the terminal groups of the email regex demand dot-introduced
labels of 2 to 3 word characters, so the validator accepts a final
label of length 2 or 3 and rejects lengths 1 and 4; in particular the
well-formed address user at example.info fails User validation. -/
theorem email_tld_two_or_three :
    emailValid "user@example.in" = true ∧
    emailValid "user@example.inf" = true ∧
    emailValid "user@example.info" = false ∧
    emailValid "user@example.i" = false ∧
    validateUser
      { name := "Bob", email := "user@example.info",
        password := PwValue.plain "longenough1", role := "user" } = false := by
  refine ⟨by decide, by decide, by decide, by decide, by decide⟩

/-- A fully populated paid and delivered order that carries neither a
paidAt nor a deliveredAt timestamp. -/
def paidOrderNoTimestamps : OrderDoc :=
  { user := some 1
    orderItems := [{ name := some "Widget", qty := some 2,
                     image := some "/uploads/widget.jpg", price := some 5,
                     product := some 42 }]
    shippingAddress := { address := some "1 Main St", city := some "Springfield",
                         postalCode := some "12345", country := some "USA" }
    paymentMethod := some "Stripe"
    paymentResult := { id := none, status := none,
                       update_time := none, email_address := none }
    itemsPrice := some 10
    taxPrice := some 1
    shippingPrice := some 2
    totalPrice := some 13
    isPaid := some true
    paidAt := none
    isDelivered := some true
    deliveredAt := none }

/-- C10: order validation does not couple the status flags to their
timestamps: a document with isPaid true and no paidAt, and isDelivered
true and no deliveredAt, validates, and changing the two timestamps on
any document never changes the validation verdict. -/
theorem order_status_timestamps_uncoupled (o : OrderDoc) (t t2 : Option Nat) :
    (validateOrder paidOrderNoTimestamps = true ∧
     paidOrderNoTimestamps.isPaid = some true ∧
     paidOrderNoTimestamps.paidAt = none ∧
     paidOrderNoTimestamps.isDelivered = some true ∧
     paidOrderNoTimestamps.deliveredAt = none) ∧
    validateOrder { o with paidAt := t, deliveredAt := t2 } = validateOrder o := by
  exact ⟨by decide, rfl⟩

/-- C7: a POST to the products route without an admin credential, be it
no credential, an invalid one, or a valid identity without the admin
role, gets an authorization error; the createProduct handler never runs
and the product collection is unchanged. -/
theorem post_products_requires_admin (auth : AuthState) (coll : List String)
    (p : String)
    (h : auth = AuthState.noCredential ∨ auth = AuthState.invalidCredential ∨
         ∃ r, auth = AuthState.authenticated r ∧ r ≠ "admin") :
    ∃ msg, postProductsChain auth coll p
      = (ProductRouteResult.authError msg, coll, false) := by
  rcases h with h | h | ⟨r, ha, hr⟩
  · subst h
    exact ⟨"Not authorized, no token", rfl⟩
  · subst h
    exact ⟨"Not authorized, no token", rfl⟩
  · subst ha
    refine ⟨"Not authorized as an admin", ?_⟩
    simp [postProductsChain, protectPasses, adminPasses, hr]

/-- Witness for C7: a request with no credential attached. -/
theorem post_products_requires_admin_witness :
    (AuthState.noCredential = AuthState.noCredential ∨
     AuthState.noCredential = AuthState.invalidCredential ∨
     ∃ r, AuthState.noCredential = AuthState.authenticated r ∧ r ≠ "admin") ∧
    ∃ msg, postProductsChain AuthState.noCredential ["Phone"] "Camera"
      = (ProductRouteResult.authError msg, ["Phone"], false) :=
  ⟨Or.inl rfl,
   post_products_requires_admin AuthState.noCredential ["Phone"] "Camera"
     (Or.inl rfl)⟩

/-- C4: evaluation of the dispatch order at an unmatched API path. In
production the GET catch-all of server.js line 100 matches every path,
API paths included, so GET /api/nonexistent is answered with the
frontend entry document and not with the 404 JSON error the claim and
the inline comment of the source promise; in development the same
request does reach the 404 middleware. -/
theorem production_catchall_swallows_api_404 :
    dispatch true (fun _ => false) (fun _ => false) (fun _ => false)
      { method := HttpMethod.get, path := "/api/nonexistent" }
      = ServerResponse.indexHtml ∧
    ServerResponse.indexHtml ≠ ServerResponse.notFoundJson "/api/nonexistent" ∧
    dispatch false (fun _ => false) (fun _ => false) (fun _ => false)
      { method := HttpMethod.get, path := "/api/nonexistent" }
      = ServerResponse.notFoundJson "/api/nonexistent" := by
  refine ⟨by decide, by decide, by decide⟩

end ECommerce
